import Mathlib

/-!
# Verification of the ublox_gps command/response correlation layer

A shallow embedding of the `Gps` class from `ublox_gps/gps.h`.  The driver
state (worker pointer, `configured_` flag, `acknowledge_` tri-state slot,
stored UART parameters and the `callbacks_` multimap) becomes an explicit
`GpsState` record.  Each API operation is a pure function from a state and
an environment oracle (which resolves the outcomes of blocking waits, i.e.
what the asynchronous dispatcher delivered before the timeout) to a result,
an updated state, and a trace of externally visible events (sends, handler
registry mutations, blocking waits) in the order the source performs them.
-/

set_option maxRecDepth 8000

namespace UbloxGps

/-- The `acknowledge_` tri-state slot: `enum { WAIT, ACK, NACK }`. -/
inductive Ack where
  | WAIT
  | ACK
  | NACK
deriving DecidableEq, BEq

/-- Modelled from the spec: the asynchronous transport worker is an excluded
collaborator (spec section 6); only its construction arguments and its
open/closed observable matter to this layer.  `Gps::isOpen` delegates to
`worker_->isOpen()`. -/
structure Worker where
  stream : Nat
  ioService : Nat
  openFlag : Bool
deriving DecidableEq, BEq

/-- The transport worker's `isOpen()` observable. -/
def Worker.isOpen (w : Worker) : Bool := w.openFlag

/-- Handler variants stored in the `callbacks_` multimap: one-shot handlers
created by `read`, persistent handlers created by `subscribe`. -/
inductive HandlerKind where
  | oneShot
  | persistent
deriving DecidableEq, BEq

/-- A typed wire message: its identity (class id, message id) and the byte
image the external codec would produce for it. -/
structure Msg where
  classId : Nat
  msgId : Nat
  bytes : List Nat
deriving DecidableEq, BEq

/-- The `Gps` object's mutable state: `worker_`, `configured_`,
`acknowledge_`, `baudrate_`, `uart_in_`, `uart_out_` and the `callbacks_`
multimap.  The multimap is a list of (identity, token, kind) entries; a
token is a stable handle to one inserted entry, standing in for the
`Callbacks::iterator` returned by `std::multimap::insert`, and `nextTok`
supplies fresh tokens. -/
structure GpsState where
  worker : Option Worker
  configured : Bool
  acknowledge : Ack
  baudrate : Nat
  uartIn : Nat
  uartOut : Nat
  callbacks : List ((Nat × Nat) × Nat × HandlerKind)
  nextTok : Nat
deriving DecidableEq, BEq

/-- Externally visible events, in program order: a transport send, the reset
of the acknowledgment slot, the blocking wait on it, and registry
insertion / blocking wait / erasure of a handler. -/
inductive Event where
  | send (bytes : List Nat)
  | resetAck
  | waitAck (timeoutMs : Nat)
  | insertHandler (classId msgId tok : Nat)
  | waitHandler (tok : Nat) (timeoutMs : Nat)
  | eraseHandler (tok : Nat)
deriving DecidableEq, BEq

/-- The environment oracle resolving blocking waits: the value of the
`acknowledge_` slot once `waitForAcknowledge` returns (the dispatcher wrote
`ACK`/`NACK`, or timeout left it at `WAIT`), and whether / with what value a
one-shot handler's `wait` was satisfied before its timeout. -/
structure Env where
  ackAfterWait : Ack
  handlerFires : Nat → Nat → Bool
  handlerValue : Nat → Nat → Msg

/-- `Gps::kWriterSize`: capacity in bytes of the fixed send buffer
(`std::vector<unsigned char> out(kWriterSize)`), never resized. -/
def kWriterSize : Nat := 1024

/-- `Gps::kDefaultAckTimeout` is 1.0 second; expressed in milliseconds to
stay in integers.  `default_timeout_` used by `configure`'s wait. -/
def kDefaultAckTimeoutMs : Nat := 1000

/-- Modelled from the spec: the external codec's serializer
(`ublox::Writer::write` targeting the fixed buffer) writes the message's
wire image and fails when it does not fit the capacity; oversized messages
are a hard failure, not a resize (spec sections 4.4 and 6). -/
def serializeInto (message : Msg) (capacity : Nat) : Option (List Nat) :=
  if message.bytes.length ≤ capacity then some message.bytes else none

/-- `Gps::configure(message, wait)` from `gps.h`: fail if no worker; set
`acknowledge_ = WAIT`; serialize into the `kWriterSize` buffer, failing
without a send on serializer failure; hand the bytes to `worker_->send`;
return true at once when `wait` is false; otherwise block on
`waitForAcknowledge(default_timeout_)` and return `acknowledge_ == ACK`.
The blocking wait's outcome comes from the environment oracle (the body of
`waitForAcknowledge` is outside this header: modelled from the spec,
section 4.3, as leaving the slot with whatever the dispatcher wrote, or
`WAIT` on timeout). -/
def configure (st : GpsState) (env : Env) (message : Msg) (wait : Bool) :
    Bool × GpsState × List Event :=
  match st.worker with
  | none => (false, st, [])
  | some _ =>
    let st1 := { st with acknowledge := Ack.WAIT }
    match serializeInto message kWriterSize with
    | none => (false, st1, [Event.resetAck])
    | some out =>
      if !wait then
        (true, st1, [Event.resetAck, Event.send out])
      else
        let st2 := { st1 with acknowledge := env.ackAfterWait }
        ((st2.acknowledge == Ack.ACK), st2,
          [Event.resetAck, Event.send out, Event.waitAck kDefaultAckTimeoutMs])

/-- `Gps::read<T>(message, timeout)` from `gps.h`: fail if no worker;
insert a fresh one-shot handler for `(T::CLASS_ID, T::MESSAGE_ID)` into
`callbacks_`; block on `handler->wait(timeout)` (outcome from the oracle);
on success take `handler->get()`; then unconditionally erase the inserted
entry (by its iterator, i.e. by its position) and return. -/
def read (st : GpsState) (env : Env) (classId msgId timeoutMs : Nat) :
    Option Msg × GpsState × List Event :=
  match st.worker with
  | none => (none, st, [])
  | some _ =>
    let tok := st.nextTok
    let st1 := { st with
      callbacks := st.callbacks ++ [((classId, msgId), (tok, HandlerKind.oneShot))],
      nextTok := tok + 1 }
    let result :=
      if env.handlerFires classId msgId then
        some (env.handlerValue classId msgId)
      else
        none
    let st2 := { st1 with callbacks := st1.callbacks.eraseIdx st.callbacks.length }
    (result, st2,
      [Event.insertHandler classId msgId tok, Event.waitHandler tok timeoutMs,
       Event.eraseHandler tok])

/-- Modelled from the spec: the byte-level `Gps::poll(class_id, message_id,
payload)` overload is declared in `gps.h` but defined outside it.  Per the
spec (sections 4.4 and 7) it sends one request-for-data frame carrying the
requested identity and the optional payload through the same fixed-capacity
writer, failing immediately when the transport is unavailable (no worker)
or the frame cannot be encoded, sending nothing in either failure case. -/
def pollRaw (st : GpsState) (classId msgId : Nat) (payload : List Nat) :
    Bool × GpsState × List Event :=
  match st.worker with
  | none => (false, st, [])
  | some _ =>
    match serializeInto
        { classId := classId, msgId := msgId, bytes := classId :: msgId :: payload }
        kWriterSize with
    | none => (false, st, [])
    | some out => (true, st, [Event.send out])

/-- `Gps::poll<ConfigT>(message, timeout)` from `gps.h`: issue the
request-for-data frame for `(ConfigT::CLASS_ID, ConfigT::MESSAGE_ID)` (no
payload); on failure return false at once; otherwise perform
`read(message, timeout)` and return its result. -/
def poll (st : GpsState) (env : Env) (classId msgId timeoutMs : Nat) :
    Option Msg × GpsState × List Event :=
  let r1 := pollRaw st classId msgId []
  if !r1.1 then
    (none, r1.2.1, r1.2.2)
  else
    let r2 := read r1.2.1 env classId msgId timeoutMs
    (r2.1, r2.2.1, r1.2.2 ++ r2.2.2)

/-- `Gps::subscribe<T>(callback)` from `gps.h`: under the callback mutex,
insert a persistent handler for `(T::CLASS_ID, T::MESSAGE_ID)` into
`callbacks_` and return the iterator (token) of the inserted entry. -/
def subscribe (st : GpsState) (classId msgId : Nat) :
    Option Nat × GpsState × List Event :=
  let tok := st.nextTok
  (some tok,
   { st with
     callbacks := st.callbacks ++ [((classId, msgId), (tok, HandlerKind.persistent))],
     nextTok := tok + 1 },
   [Event.insertHandler classId msgId tok])

/-- Modelled from the spec: `Gps::setRate(class_id, message_id, rate)` is
declared in `gps.h` but defined outside it.  Per the spec (section 4.4) it
builds one fully-populated CFG-MSG configuration payload from its typed
arguments; this is its wire image (identity 0x06/0x01, fields reduced to
bytes). -/
def cfgMsgPayload (classId msgId rate : Nat) : Msg :=
  { classId := 6, msgId := 1,
    bytes := [6, 1, classId % 256, msgId % 256, rate % 256] }

/-- Modelled from the spec: `setRate` delegates its CFG-MSG payload to
`configure`, awaiting an ACK (spec section 4.4). -/
def setRate (st : GpsState) (env : Env) (classId msgId rate : Nat) :
    Bool × GpsState × List Event :=
  configure st env (cfgMsgPayload classId msgId rate) true

/-- `Gps::subscribe<T>(callback, rate)` from `gps.h`: first
`setRate(T::CLASS_ID, T::MESSAGE_ID, rate)`; on failure return the default
iterator (no token) without subscribing; otherwise perform the plain
`subscribe`. -/
def subscribeWithRate (st : GpsState) (env : Env) (classId msgId rate : Nat) :
    Option Nat × GpsState × List Event :=
  let r1 := setRate st env classId msgId rate
  if !r1.1 then
    (none, r1.2.1, r1.2.2)
  else
    let r2 := subscribe r1.2.1 classId msgId
    (r2.1, r2.2.1, r1.2.2 ++ r2.2.2)

/-- Modelled from the spec: the worker overload `Gps::initialize(worker)` is
declared in `gps.h` but defined outside it; it stores the worker and hooks
the raw-byte read callback into the dispatcher (spec sections 2 and 6).
Only the stored worker is observable to the claims here. -/
def initWorker (st : GpsState) (w : Worker) : GpsState :=
  { st with worker := some w }

/-- `new AsyncWorker<StreamT>(stream, io_service)`: construction of the
transport worker from a stream and an io_service (transport boundary). -/
def mkWorker (stream ioService : Nat) : Worker :=
  { stream := stream, ioService := ioService, openFlag := true }

/-- The generic stream overload `Gps::initialize(stream, io_service,
baudrate, uart_in, uart_out)` from `gps.h`: if a worker already exists,
return at once; otherwise construct an `AsyncWorker` from the stream and
io_service and delegate to the worker overload.  The `baudrate`, `uart_in`
and `uart_out` arguments are not used on either path. -/
def initStream (st : GpsState)
    (stream ioService baudrate uartIn uartOut : Nat) : GpsState :=
  match st.worker with
  | some _ => st
  | none => initWorker st (mkWorker stream ioService)

/-- `Gps::isInitialized()`: `worker_ != 0`. -/
def isInitialized (st : GpsState) : Bool := st.worker.isSome

/-- `Gps::isConfigured()`: `isInitialized() && configured_`. -/
def isConfigured (st : GpsState) : Bool := isInitialized st && st.configured

/-- `Gps::isOpen()`: `worker_->isOpen()`, dereferencing `worker_` with no
null check.  The dereference is undefined when no worker exists, so the
embedding is `Option`-valued: `none` exactly when the null pointer would be
dereferenced. -/
def isOpen (st : GpsState) : Option Bool := st.worker.map Worker.isOpen

/-- An event is a transport send. -/
def isSendEvent : Event → Bool
  | Event.send _ => true
  | _ => false

/-- An event is a handler-registry insertion. -/
def isInsertEvent : Event → Bool
  | Event.insertHandler _ _ _ => true
  | _ => false

/-- Among registry insertions and transport sends, the first event of a
trace is an insertion (vacuously true when neither kind occurs): the
formal reading of "the handler is registered before the send that might
trigger the reply". -/
def handlerBeforeSend : List Event → Bool
  | [] => true
  | Event.send _ :: _ => false
  | Event.insertHandler _ _ _ :: _ => true
  | _ :: rest => handlerBeforeSend rest

/-! ## Concrete fixtures for witnesses and counterexamples -/

/-- A concrete transport worker. -/
def exWorker : Worker := mkWorker 0 0

/-- A concrete initialized driver state with an empty registry. -/
def exSt : GpsState :=
  { worker := some exWorker, configured := false, acknowledge := Ack.WAIT,
    baudrate := 9600, uartIn := 0, uartOut := 0, callbacks := [], nextTok := 0 }

/-- A concrete uninitialized driver state (no worker). -/
def exStNone : GpsState := { exSt with worker := none }

/-- A concrete initialized state whose acknowledgment slot holds `ACK`. -/
def exStAck : GpsState := { exSt with acknowledge := Ack.ACK }

/-- A concrete initialized and configured driver state. -/
def exStConf : GpsState := { exSt with configured := true }

/-- A concrete environment: the dispatcher delivered an ACK before the
wait returned, and no one-shot handler was satisfied. -/
def exEnvAck : Env :=
  { ackAfterWait := Ack.ACK, handlerFires := fun _ _ => false,
    handlerValue := fun _ _ => { classId := 0, msgId := 0, bytes := [] } }

/-- A concrete small configuration message (fits the send buffer). -/
def exMsg : Msg := { classId := 6, msgId := 0, bytes := [6, 0] }

/-- A concrete oversized message: 1025 bytes cannot fit the 1024-byte send
buffer, so its serialization fails. -/
def bigMsg : Msg := { classId := 6, msgId := 0, bytes := List.replicate 1025 0 }

/-- `WAIT` is not `ACK` under the derived comparison. -/
theorem wait_beq_ack : (Ack.WAIT == Ack.ACK) = false := rfl

/-- `NACK` is not `ACK` under the derived comparison. -/
theorem nack_beq_ack : (Ack.NACK == Ack.ACK) = false := rfl

/-- `ACK` equals `ACK` under the derived comparison. -/
theorem ack_beq_ack : (Ack.ACK == Ack.ACK) = true := rfl

/-- Erasing, by its position, the element just appended to a list restores
the list (the registry effect of `callbacks_.erase(callback)` in `read`). -/
theorem eraseIdx_append_singleton {α : Type} (xs : List α) (a : α) :
    (xs ++ [a]).eraseIdx xs.length = xs := by
  induction xs with
  | nil => rfl
  | cons x xs ih => simpa [List.eraseIdx] using ih

/-! ## Claims -/

/-- C1: on an initialized driver whose message serializes, `configure`
returns true immediately after the send when `wait` is false; with
`wait = true` it blocks on the default timeout and returns true iff the
acknowledgment slot observed after the wait holds `ACK`, returning false
when the dispatcher recorded a NACK and when neither arrived (slot still
`WAIT`). -/
theorem c1_configure_ack_semantics (st : GpsState) (env : Env) (message : Msg)
    (w : Worker) (out : List Nat)
    (hw : st.worker = some w) (hs : serializeInto message kWriterSize = some out) :
    (configure st env message false).1 = true ∧
    (configure st env message true).1 = (env.ackAfterWait == Ack.ACK) ∧
    (configure st env message true).1 =
      ((configure st env message true).2.1.acknowledge == Ack.ACK) ∧
    (env.ackAfterWait = Ack.NACK → (configure st env message true).1 = false) ∧
    (env.ackAfterWait = Ack.WAIT → (configure st env message true).1 = false) ∧
    (configure st env message true).2.2 =
      [Event.resetAck, Event.send out, Event.waitAck kDefaultAckTimeoutMs] := by
  refine ⟨?_, ?_, ?_, ?_, ?_, ?_⟩ <;>
    simp [configure, hw, hs] <;> intro h <;> simp [h] <;> decide

/-- Witness for C1 at a concrete initialized state, small message and an
environment whose dispatcher recorded an ACK. -/
theorem c1_configure_ack_semantics_witness :
    exSt.worker = some exWorker ∧
    serializeInto exMsg kWriterSize = some [6, 0] ∧
    (configure exSt exEnvAck exMsg false).1 = true ∧
    (configure exSt exEnvAck exMsg true).1 = (exEnvAck.ackAfterWait == Ack.ACK) := by
  refine ⟨by decide, by decide, ?_, ?_⟩
  · exact (c1_configure_ack_semantics exSt exEnvAck exMsg exWorker [6, 0]
      (by decide) (by decide)).1
  · exact (c1_configure_ack_semantics exSt exEnvAck exMsg exWorker [6, 0]
      (by decide) (by decide)).2.1

/-- C3: after `read` returns — value delivered or timed out, initialized or
not — the registry is exactly what it was before the call: the one-shot
handler inserted by the call has been erased unconditionally. -/
theorem c3_read_deregisters (st : GpsState) (env : Env)
    (classId msgId timeoutMs : Nat) :
    (read st env classId msgId timeoutMs).2.1.callbacks = st.callbacks := by
  cases hw : st.worker with
  | none => simp [read, hw]
  | some w => simp [read, hw, eraseIdx_append_singleton]

/-- C8: on an uninitialized driver (no worker), `read` and `configure`
return failure immediately, with the state untouched and an empty event
trace: nothing registered, nothing sent, no blocking wait. -/
theorem c8_uninitialized_fails_fast (st : GpsState) (env : Env)
    (classId msgId timeoutMs : Nat) (message : Msg) (wait : Bool)
    (hw : st.worker = none) :
    read st env classId msgId timeoutMs = (none, st, []) ∧
    configure st env message wait = (false, st, []) := by
  constructor <;> simp [read, configure, hw]

/-- Witness for C8 at a concrete worker-less state. -/
theorem c8_uninitialized_fails_fast_witness :
    exStNone.worker = none ∧
    read exStNone exEnvAck 1 2 5 = (none, exStNone, []) ∧
    configure exStNone exEnvAck exMsg true = (false, exStNone, []) := by
  refine ⟨by decide, ?_, ?_⟩
  · exact (c8_uninitialized_fails_fast exStNone exEnvAck 1 2 5 exMsg true rfl).1
  · exact (c8_uninitialized_fails_fast exStNone exEnvAck 1 2 5 exMsg true rfl).2

/-- C10: `isOpen` is defined (dereferences a live worker) exactly when
`isInitialized` holds, while `isInitialized` and `isConfigured` are total
on every state, and `isConfigured` implies `isInitialized`. -/
theorem c10_isOpen_requires_init (st : GpsState) :
    (isOpen st).isSome = isInitialized st ∧
    (isConfigured st = true → isInitialized st = true) := by
  cases hw : st.worker with
  | none => simp [isOpen, isInitialized, isConfigured, hw]
  | some w => simp [isOpen, isInitialized, hw]

/-- Witness for C10 at a concrete configured state. -/
theorem c10_isOpen_requires_init_witness :
    (isOpen exStConf).isSome = isInitialized exStConf ∧
    isInitialized exStConf = true := by
  exact ⟨(c10_isOpen_requires_init exStConf).1,
    (c10_isOpen_requires_init exStConf).2 (by decide)⟩

/-- C4: when serialization into the fixed 1024-byte send buffer fails,
`configure` returns false immediately and nothing is handed to the
transport's send primitive (no send event in its trace), for any state and
either value of `wait`. -/
theorem c4_serialize_failure_no_send (st : GpsState) (env : Env) (message : Msg)
    (wait : Bool) (hf : serializeInto message kWriterSize = none) :
    kWriterSize = 1024 ∧
    (configure st env message wait).1 = false ∧
    (configure st env message wait).2.2.filter isSendEvent = [] := by
  cases hw : st.worker with
  | none => refine ⟨rfl, ?_, ?_⟩ <;> simp [configure, hw]
  | some w => refine ⟨rfl, ?_, ?_⟩ <;> simp [configure, hw, hf, isSendEvent]

/-- Witness for C4: an initialized state and a 1025-byte message. -/
theorem c4_serialize_failure_no_send_witness :
    serializeInto bigMsg kWriterSize = none ∧
    (configure exSt exEnvAck bigMsg true).1 = false ∧
    (configure exSt exEnvAck bigMsg true).2.2.filter isSendEvent = [] := by
  have hf : serializeInto bigMsg kWriterSize = none := by
    simp [serializeInto, bigMsg, kWriterSize]
  exact ⟨hf, (c4_serialize_failure_no_send exSt exEnvAck bigMsg true hf).2.1,
    (c4_serialize_failure_no_send exSt exEnvAck bigMsg true hf).2.2⟩

/-- C5 as stated is false: `configure` sets `acknowledge_ = WAIT` *before*
attempting serialization, so at a concrete initialized state whose slot
holds `ACK` and a message whose serialization fails, `configure` returns
with the slot changed to `WAIT`, not unchanged. -/
theorem c5_counterexample :
    exStAck.acknowledge = Ack.ACK ∧
    serializeInto bigMsg kWriterSize = none ∧
    (configure exStAck exEnvAck bigMsg true).1 = false ∧
    (configure exStAck exEnvAck bigMsg true).2.1.acknowledge = Ack.WAIT ∧
    Ack.WAIT ≠ Ack.ACK := by
  have hf : serializeInto bigMsg kWriterSize = none := by
    simp [serializeInto, bigMsg, kWriterSize]
  refine ⟨rfl, hf, ?_, ?_, by decide⟩ <;>
    simp [configure, hf, exStAck, exSt, exWorker, mkWorker]

/-- C5 amended: on an initialized driver the acknowledgment slot is reset
to `WAIT` immediately after the worker check and before serialization is
attempted; when serialization fails, `configure` returns false with the
slot left at `WAIT` (changed, if it held something else) and nothing sent. -/
theorem c5_reset_precedes_serialization (st : GpsState) (env : Env)
    (message : Msg) (wait : Bool) (w : Worker) (hw : st.worker = some w)
    (hf : serializeInto message kWriterSize = none) :
    configure st env message wait =
      (false, { st with acknowledge := Ack.WAIT }, [Event.resetAck]) := by
  simp [configure, hw, hf]

/-- Witness for the amended C5 at a concrete state and oversized message. -/
theorem c5_reset_precedes_serialization_witness :
    exStAck.worker = some exWorker ∧
    serializeInto bigMsg kWriterSize = none ∧
    configure exStAck exEnvAck bigMsg true =
      (false, { exStAck with acknowledge := Ack.WAIT }, [Event.resetAck]) := by
  have hf : serializeInto bigMsg kWriterSize = none := by
    simp [serializeInto, bigMsg, kWriterSize]
  exact ⟨rfl, hf,
    c5_reset_precedes_serialization exStAck exEnvAck bigMsg true exWorker rfl hf⟩

/-- C2 as stated is false: in a concrete `poll` call on an initialized
driver the trace contains one send and one handler insertion, and the
insertion does not precede the send — `poll` issues the request frame
first and only then lets `read` register the one-shot handler. -/
theorem c2_counterexample :
    ((poll exSt exEnvAck 1 2 5).2.2.filter isSendEvent).length = 1 ∧
    ((poll exSt exEnvAck 1 2 5).2.2.filter isInsertEvent).length = 1 ∧
    handlerBeforeSend (poll exSt exEnvAck 1 2 5).2.2 = false := by
  decide

/-- C2 amended: `read` itself sends nothing, so its one-shot handler is
registered before any send of that call (vacuously — its trace has no send
event and opens with the insertion); `poll`, however, emits the request
frame and only then performs `read`, so in `poll`'s trace the send precedes
the handler insertion and a delivery window exists between them. -/
theorem c2_insert_send_order (st : GpsState) (env : Env)
    (classId msgId timeoutMs : Nat) (w : Worker) (hw : st.worker = some w) :
    (read st env classId msgId timeoutMs).2.2.filter isSendEvent = [] ∧
    handlerBeforeSend (read st env classId msgId timeoutMs).2.2 = true ∧
    (poll st env classId msgId timeoutMs).2.2 =
      Event.send [classId, msgId] :: (read st env classId msgId timeoutMs).2.2 ∧
    handlerBeforeSend (poll st env classId msgId timeoutMs).2.2 = false := by
  refine ⟨?_, ?_, ?_, ?_⟩ <;>
    simp [read, poll, pollRaw, serializeInto, kWriterSize, hw, isSendEvent,
      handlerBeforeSend]

/-- Witness for the amended C2 at a concrete initialized state. -/
theorem c2_insert_send_order_witness :
    exSt.worker = some exWorker ∧
    (read exSt exEnvAck 1 2 5).2.2.filter isSendEvent = [] ∧
    handlerBeforeSend (poll exSt exEnvAck 1 2 5).2.2 = false := by
  exact ⟨rfl, (c2_insert_send_order exSt exEnvAck 1 2 5 exWorker rfl).1,
    (c2_insert_send_order exSt exEnvAck 1 2 5 exWorker rfl).2.2.2⟩

/-- A concrete environment: the dispatcher recorded a NACK before the wait
returned. -/
def exEnvNack : Env :=
  { ackAfterWait := Ack.NACK, handlerFires := fun _ _ => false,
    handlerValue := fun _ _ => { classId := 0, msgId := 0, bytes := [] } }

/-- C6: `poll` sends one request-for-data frame carrying the requested
identity and then performs `read`, returning `read`'s result; when the
request-send fails it returns failure immediately, with the state untouched
and an empty trace — no handler registered, no wait performed. -/
theorem c6_poll_sends_then_reads (st : GpsState) (env : Env)
    (classId msgId timeoutMs : Nat) :
    ((pollRaw st classId msgId []).1 = false →
      poll st env classId msgId timeoutMs = (none, st, [])) ∧
    (∀ w, st.worker = some w →
      (poll st env classId msgId timeoutMs).1 =
        (read st env classId msgId timeoutMs).1 ∧
      (poll st env classId msgId timeoutMs).2.2 =
        Event.send (classId :: msgId :: []) ::
          (read st env classId msgId timeoutMs).2.2) := by
  cases hw : st.worker with
  | none =>
    constructor
    · intro _; simp [poll, pollRaw, hw]
    · intro w hww; exact Option.noConfusion hww
  | some w =>
    constructor
    · intro h
      simp [pollRaw, hw, serializeInto, kWriterSize] at h
    · intro w2 hww
      constructor <;> simp [poll, pollRaw, hw, serializeInto, kWriterSize]

/-- Witness for C6: the failing-send case at a worker-less state and the
successful case at an initialized state. -/
theorem c6_poll_sends_then_reads_witness :
    (pollRaw exStNone 1 2 []).1 = false ∧
    poll exStNone exEnvAck 1 2 5 = (none, exStNone, []) ∧
    (poll exSt exEnvAck 1 2 5).1 = (read exSt exEnvAck 1 2 5).1 := by
  refine ⟨by decide, ?_, ?_⟩
  · exact (c6_poll_sends_then_reads exStNone exEnvAck 1 2 5).1 (by decide)
  · exact ((c6_poll_sends_then_reads exSt exEnvAck 1 2 5).2 exWorker rfl).1

/-- C7: the rate-variant `subscribe` first issues exactly one
rate-configuration command (its trace's sends are exactly the one
`setRate` command's sends, at most one frame); if that command fails, no
handler is inserted (registry unchanged, no insert event) and the default
iterator (no token) reports failure; if it succeeds, exactly the one
persistent handler for the requested identity is appended. -/
theorem c7_subscribe_rate_gate (st : GpsState) (env : Env)
    (classId msgId rate : Nat) :
    ((setRate st env classId msgId rate).1 = false →
      (subscribeWithRate st env classId msgId rate).1 = none ∧
      (subscribeWithRate st env classId msgId rate).2.1.callbacks =
        st.callbacks ∧
      (subscribeWithRate st env classId msgId rate).2.2.filter isInsertEvent
        = []) ∧
    ((setRate st env classId msgId rate).1 = true →
      (subscribeWithRate st env classId msgId rate).1 = some st.nextTok ∧
      (subscribeWithRate st env classId msgId rate).2.1.callbacks =
        st.callbacks ++
          [((classId, msgId), (st.nextTok, HandlerKind.persistent))]) ∧
    (subscribeWithRate st env classId msgId rate).2.2.filter isSendEvent =
      (setRate st env classId msgId rate).2.2.filter isSendEvent ∧
    ((setRate st env classId msgId rate).2.2.filter isSendEvent).length ≤ 1 := by
  cases hw : st.worker with
  | none =>
    refine ⟨?_, ?_, ?_, ?_⟩ <;>
      simp [subscribeWithRate, setRate, configure, hw, isInsertEvent,
        isSendEvent]
  | some w =>
    cases hA : env.ackAfterWait <;>
      refine ⟨?_, ?_, ?_, ?_⟩ <;>
        simp [subscribeWithRate, setRate, configure, subscribe, cfgMsgPayload,
          serializeInto, kWriterSize, hw, hA, isInsertEvent, isSendEvent,
          wait_beq_ack, nack_beq_ack, ack_beq_ack]

/-- Witness for C7: a NACK environment (rate command rejected — no handler
registered) and an ACK environment (handler appended). -/
theorem c7_subscribe_rate_gate_witness :
    (setRate exSt exEnvNack 1 2 5).1 = false ∧
    (subscribeWithRate exSt exEnvNack 1 2 5).2.1.callbacks = exSt.callbacks ∧
    (setRate exSt exEnvAck 1 2 5).1 = true ∧
    (subscribeWithRate exSt exEnvAck 1 2 5).2.1.callbacks =
      exSt.callbacks ++ [((1, 2), (exSt.nextTok, HandlerKind.persistent))] := by
  refine ⟨by decide, ?_, by decide, ?_⟩
  · exact ((c7_subscribe_rate_gate exSt exEnvNack 1 2 5).1 (by decide)).2.1
  · exact ((c7_subscribe_rate_gate exSt exEnvAck 1 2 5).2.1 (by decide)).2

/-- C9: calling the stream overload of `initialize` on a driver that
already has a worker returns the state unchanged (idempotent after the
first call), and on any state the result is independent of the `baudrate`,
`uart_in` and `uart_out` arguments (the generic instantiation never uses
them). -/
theorem c9_init_noop_when_initialized (st : GpsState)
    (stream ioService b1 u1 o1 b2 u2 o2 : Nat) :
    (∀ w, st.worker = some w → initStream st stream ioService b1 u1 o1 = st) ∧
    initStream st stream ioService b1 u1 o1 =
      initStream st stream ioService b2 u2 o2 := by
  cases hw : st.worker with
  | none =>
    constructor
    · intro w hww; exact Option.noConfusion hww
    · simp [initStream, hw]
  | some w =>
    constructor
    · intro w2 hww; simp [initStream, hw]
    · simp [initStream, hw]

/-- Witness for C9 at a concrete initialized state. -/
theorem c9_init_noop_when_initialized_witness :
    exSt.worker = some exWorker ∧
    initStream exSt 7 8 9 10 11 = exSt ∧
    initStream exStNone 7 8 9 10 11 = initStream exStNone 7 8 12 13 14 := by
  exact ⟨rfl,
    (c9_init_noop_when_initialized exSt 7 8 9 10 11 12 13 14).1 exWorker rfl,
    (c9_init_noop_when_initialized exStNone 7 8 9 10 11 12 13 14).2⟩

end UbloxGps
